import Mathlib

/-!
Verification of the task-queue core of the `pulsar` repository
(`src/pulsar/apps/tasks/backends/__init__.py`) against its
natural-language specification.

The Python source is shallowly embedded: the `Task` value object, the
backend store contract (`get_task` / `save_task` / `delete_tasks` /
`put_task`), `create_task` / `handle_task_done` / `_run_job`, the
executor `_execute_task`, the worker pull loop `may_pool_task` /
`_done_task`, and the periodic scheduler (`Schedule`,
`SchedulerEntry`, `tick`).  Python `datetime` values are modelled as
integers, backend suspension points (`yield`) as sequential state
passing, and the nondeterministic inputs (wall-clock readings and the
random ids produced by `create_task_id()`) as explicit parameters.
-/

namespace Pulsar

/-- Timestamps (Python `datetime`) are modelled as integers. -/
abbrev Time := Int

/-- Opaque Python values appearing as task arguments and results. -/
inductive PyValue where
  | vnone
  | vstr (s : String)
  | vint (n : Int)
  deriving DecidableEq, Repr

/-! ## Status strings and precedence

The status constants come from `pulsar.apps.tasks.states`, which is
not part of the sources under verification; only its interface is used
by `backends/__init__.py`.  Modelled from the spec: §3 fixes the
status set, `READY_STATES` and `FULL_RUN_STATES`, and fixes the
precedence to be a total order in which lower numbers mean higher
precedence, terminal states preceding `STARTED`, which precedes the
not-yet-started states; statuses outside the mapping (among them
`UNKNOWN` itself) receive the catch-all `UNKNOWN_STATE` precedence. -/

def PENDING : String := "PENDING"

def QUEUED : String := "QUEUED"

def RETRY : String := "RETRY"

def STARTED : String := "STARTED"

def REVOKED : String := "REVOKED"

def UNKNOWN : String := "UNKNOWN"

def FAILURE : String := "FAILURE"

def SUCCESS : String := "SUCCESS"

/-- Modelled from the spec: precedence list, highest precedence first. -/
def PRECEDENCE : List String := [SUCCESS, FAILURE, REVOKED, STARTED, QUEUED, RETRY, PENDING]

/-- Modelled from the spec: the precedence value handed to statuses
outside the precedence mapping. -/
def UNKNOWN_STATE : Nat := PRECEDENCE.length

/-- Modelled from the spec: mapping from a status string to its
integer precedence. -/
def PRECEDENCE_MAPPING (s : String) : Option Nat :=
  PRECEDENCE.findIdx? (fun x => x == s)

/-- Modelled from the spec: the set of states of a finished task. -/
def READY_STATES : List String := [REVOKED, FAILURE, SUCCESS]

/-- Modelled from the spec: the set of states of a task that has run. -/
def FULL_RUN_STATES : List String := [FAILURE, SUCCESS]

/-! ## The `Task` value object (`Task.__init__`) -/

/-- The `Task` object, one field per attribute set in `Task.__init__`
(source lines 203-217); `params` collects the `**params` rest. -/
structure Task where
  id : String
  name : Option String
  time_executed : Option Time
  from_task : Option String
  time_started : Option Time
  time_ended : Option Time
  expiry : Option Time
  args : Option (List PyValue)
  kwargs : Option (List (String × PyValue))
  status : Option String
  result : Option PyValue
  params : List (String × PyValue)
  deriving DecidableEq, Repr

/-- A `Task` freshly constructed from an id only: every optional
attribute defaults to `None` exactly as in `Task.__init__`. -/
def newTask (tid : String) : Task :=
  { id := tid, name := none, time_executed := none, from_task := none,
    time_started := none, time_ended := none, expiry := none,
    args := none, kwargs := none, status := none, result := none, params := [] }

/-- `Task.status_code` (source lines 223-227):
`states.PRECEDENCE_MAPPING.get(self.status, states.UNKNOWN_STATE)`. -/
def Task.status_code (t : Task) : Nat :=
  match t.status with
  | none => UNKNOWN_STATE
  | some s => (PRECEDENCE_MAPPING s).getD UNKNOWN_STATE

/-- `Task.done` (source lines 229-232): `self.status in states.READY_STATES`. -/
def Task.done (t : Task) : Bool :=
  match t.status with
  | none => false
  | some s => READY_STATES.contains s

/-- `PRECEDENCE_MAPPING[states.STARTED]`, the direct dictionary access
made by `_execute_task` (source line 593). -/
def PREC_STARTED : Nat := (PRECEDENCE_MAPPING STARTED).getD UNKNOWN_STATE

/-! ## `Task.tojson` -/

/-- Values of the dictionary returned by `Task.tojson`; the raw Python
attribute values, tagged by their runtime type. -/
inductive AttrValue where
  | anone
  | astr (s : String)
  | adatetime (t : Time)
  | alist (xs : List PyValue)
  | adict (xs : List (String × PyValue))
  | aval (v : PyValue)
  deriving DecidableEq, Repr

/-- Whether a dictionary value is a string (as an ISO-8601 timestamp
would have to be). -/
def AttrValue.isStr : AttrValue → Bool
  | AttrValue.astr _ => true
  | _ => false

/-- Lift an optional string attribute to its raw dictionary value. -/
def attrOfOptStr : Option String → AttrValue
  | none => AttrValue.anone
  | some s => AttrValue.astr s

/-- Lift an optional datetime attribute to its raw dictionary value. -/
def attrOfOptTime : Option Time → AttrValue
  | none => AttrValue.anone
  | some t => AttrValue.adatetime t

/-- Lift the optional `args` tuple to its raw dictionary value. -/
def attrOfOptList : Option (List PyValue) → AttrValue
  | none => AttrValue.anone
  | some xs => AttrValue.alist xs

/-- Lift the optional `kwargs` dictionary to its raw dictionary value. -/
def attrOfOptDict : Option (List (String × PyValue)) → AttrValue
  | none => AttrValue.anone
  | some xs => AttrValue.adict xs

/-- Lift the optional `result` value to its raw dictionary value. -/
def attrOfOptVal : Option PyValue → AttrValue
  | none => AttrValue.anone
  | some v => AttrValue.aval v

/-- `Task.tojson` (source lines 248-250): `self.__dict__.copy()` — the
attribute dictionary, values untranslated, keys in the insertion order
of `Task.__init__`. -/
def Task.tojson (t : Task) : List (String × AttrValue) :=
  [("id", AttrValue.astr t.id),
   ("name", attrOfOptStr t.name),
   ("time_executed", attrOfOptTime t.time_executed),
   ("from_task", attrOfOptStr t.from_task),
   ("time_started", attrOfOptTime t.time_started),
   ("time_ended", attrOfOptTime t.time_ended),
   ("expiry", attrOfOptTime t.expiry),
   ("args", attrOfOptList t.args),
   ("kwargs", attrOfOptDict t.kwargs),
   ("status", attrOfOptStr t.status),
   ("result", attrOfOptVal t.result),
   ("params", AttrValue.adict t.params)]

/-! ## The backend store contract

The five store operations are abstract in the source
(`raise NotImplementedError`, source lines 522-553); the in-memory and
redis implementations are not under verification.  Modelled from the
spec (§4.1): the store maps task ids to tasks; `get_task` with an id
is a point lookup, `save_task` is an upsert in which the last writer
wins per field, `delete_tasks` is idempotent deletion, and `save_task`
results in the persisted task id (so that `run_job` resolves to the
task id). -/

/-- The backend task store, keyed by `Task.id`. -/
abbrev Store := List Task

/-- Modelled from the spec: `get_task(task_id)` point lookup. -/
def get_task (store : Store) (tid : String) : Option Task :=
  store.find? (fun t => t.id == tid)

/-- Modelled from the spec: `delete_tasks(task_ids)` idempotent deletion. -/
def delete_tasks (store : Store) (tids : List String) : Store :=
  store.filter (fun t => !(tids.contains t.id))

/-- The keyword arguments of one `save_task` call: `some v` when the
keyword was passed with value `v`, `none` when it was not passed. -/
structure SaveFields where
  name : Option (Option String)
  time_executed : Option (Option Time)
  from_task : Option (Option String)
  time_started : Option (Option Time)
  time_ended : Option (Option Time)
  expiry : Option (Option Time)
  args : Option (Option (List PyValue))
  kwargs : Option (Option (List (String × PyValue)))
  status : Option (Option String)
  result : Option (Option PyValue)
  params : Option (List (String × PyValue))
  deriving DecidableEq, Repr

/-- A `SaveFields` record with no keyword passed. -/
def SaveFields.empty : SaveFields :=
  { name := none, time_executed := none, from_task := none,
    time_started := none, time_ended := none, expiry := none,
    args := none, kwargs := none, status := none, result := none, params := none }

/-- Overwrite the fields of a task with the passed keywords. -/
def applyFields (t : Task) (f : SaveFields) : Task :=
  { id := t.id,
    name := f.name.getD t.name,
    time_executed := f.time_executed.getD t.time_executed,
    from_task := f.from_task.getD t.from_task,
    time_started := f.time_started.getD t.time_started,
    time_ended := f.time_ended.getD t.time_ended,
    expiry := f.expiry.getD t.expiry,
    args := f.args.getD t.args,
    kwargs := f.kwargs.getD t.kwargs,
    status := f.status.getD t.status,
    result := f.result.getD t.result,
    params := f.params.getD t.params }

/-- Modelled from the spec: `save_task(task_id, **params)` upsert —
update the stored task's passed fields, or persist a new task whose
unpassed fields keep their `Task.__init__` defaults. -/
def save_task (store : Store) (tid : String) (f : SaveFields) : Store :=
  match get_task store tid with
  | some _ => store.map (fun u => if u.id == tid then applyFields u f else u)
  | none => store ++ [applyFields (newTask tid) f]

/-! ## Jobs, the registry and scheduler entries -/

/-- `Job.type`, either a regular or a periodic job (spec §6). -/
inductive JobType where
  | regular
  | periodic
  deriving DecidableEq, Repr

/-- The job descriptor consumed by the backend: `name`, `type`,
`timeout` (a `timedelta`, `None` when unset), the periodic cadence
`run_every` with an optional `anchor`, and `make_task_id` (spec §6).
The callable body itself is supplied to the executor separately as the
body outcome. -/
structure Job where
  name : String
  jtype : JobType
  timeout : Option Int
  run_every : Option Int
  anchor : Option Time
  make_task_id : List PyValue → List (String × PyValue) → String

/-- The job registry, a lookup from job name to descriptor. -/
abbrev Registry := List Job

/-- `jobname in self.registry` / `self.registry[jobname]`. -/
def registryFind (reg : Registry) (jobname : String) : Option Job :=
  reg.find? (fun j => j.name == jobname)

/-- The `Schedule` value of the periodic scheduler (source lines 654-658). -/
structure Schedule where
  run_every : Int
  anchor : Option Time
  deriving DecidableEq, Repr

/-- A `SchedulerEntry` (source lines 677-694): one record per periodic
job, holding its schedule, `last_run_at` and `total_run_count`. -/
structure SchedulerEntry where
  name : String
  schedule : Schedule
  last_run_at : Time
  total_run_count : Nat
  deriving DecidableEq, Repr

/-- `SchedulerEntry.next(now=None)` (source lines 729-736): set
`last_run_at` to `now or datetime.now()` and increment
`total_run_count`; `wallclock` is the `datetime.now()` reading. -/
def SchedulerEntry.next (e : SchedulerEntry) (now : Option Time) (wallclock : Time) : SchedulerEntry :=
  { e with last_run_at := now.getD wallclock, total_run_count := e.total_run_count + 1 }

/-- The scheduler table `self.entries`: `None` when periodic
scheduling is disabled, otherwise a dictionary keyed by job name. -/
abbrev Entries := Option (List (String × SchedulerEntry))

/-- Point lookup in the scheduler table. -/
def lookupEntry (es : Entries) (name : String) : Option SchedulerEntry :=
  match es with
  | none => none
  | some l => (l.find? (fun p => p.1 == name)).map (fun p => p.2)

/-- The entry advancement made by `create_task` (source lines 403-404):
`if self.entries and job.name in self.entries: self.entries[job.name].next()`.
An absent or empty table (both falsy) leaves everything unchanged. -/
def advanceEntry (es : Entries) (name : String) (now : Option Time) (wallclock : Time) : Entries :=
  match es with
  | none => none
  | some l =>
    if (l.find? (fun p => p.1 == name)).isSome then
      some (l.map (fun p => if p.1 == name then (p.1, SchedulerEntry.next p.2 now wallclock) else p))
    else some l

/-- Overwrite the entry stored under `name` (in-place mutation of the
entry object held by the `self.entries` dictionary). -/
def setEntry (es : Entries) (name : String) (e : SchedulerEntry) : Entries :=
  match es with
  | none => none
  | some l => some (l.map (fun p => if p.1 == name then (p.1, e) else p))

/-! ## The backend state and `create_task` -/

/-- The state of a `TaskBackend` owned by one worker: the registry,
the scheduler table, the store, the `schedule_periodic` flag and
`next_run` (source lines 309-315 and the local properties). -/
structure Backend where
  registry : Registry
  entries : Entries
  store : Store
  schedule_periodic : Bool
  next_run : Time

/-- The `expiry` argument of `create_task`: a `datetime`, a
`timedelta`, or POSIX epoch seconds (`get_datetime`, source lines
103-109). -/
inductive ExpiryArg where
  | dt (t : Time)
  | delta (d : Int)
  | epoch (n : Int)
  deriving DecidableEq, Repr

/-- `get_datetime(expiry, start)` (source lines 103-109). -/
def get_datetime (e : ExpiryArg) (start : Time) : Time :=
  match e with
  | ExpiryArg.dt t => t
  | ExpiryArg.delta d => start + d
  | ExpiryArg.epoch n => n

/-- One observable backend effect, recorded in call order. -/
inductive BEvent where
  | deleteTasks (tids : List String)
  | saveTask (tid : String) (f : SaveFields)
  | putTask (tid : String)
  deriving DecidableEq, Repr

/-- The `SaveFields` record of `handle_task_done`'s save: every
attribute of `task.tojson()` except the popped `id`. -/
def allFields (t : Task) : SaveFields :=
  { name := some t.name, time_executed := some t.time_executed,
    from_task := some t.from_task, time_started := some t.time_started,
    time_ended := some t.time_ended, expiry := some t.expiry,
    args := some t.args, kwargs := some t.kwargs, status := some t.status,
    result := some t.result, params := some t.params }

/-- `TaskBackend.handle_task_done` (source lines 469-475): generate a
fresh id (`create_task_id()`, supplied here as `freshId` since the id
generator lives outside the verified sources), take the task's
attribute dictionary without `id`, delete the old record, save the
data under the fresh id, and yield `None`. -/
def handle_task_done (store : Store) (task : Task) (freshId : String) : Store × List BEvent :=
  let s1 := delete_tasks store [task.id]
  let s2 := save_task s1 freshId (allFields task)
  (s2, [BEvent.deleteTasks [task.id], BEvent.saveTask freshId (allFields task)])

/-- The `SaveFields` record of `create_task`'s `PENDING` save
(source lines 411-414). -/
def pendingFields (job : Job) (time_executed : Time) (expiry : Option Time)
    (targs : List PyValue) (tkwargs : List (String × PyValue))
    (params : List (String × PyValue)) : SaveFields :=
  { name := some (some job.name), time_executed := some (some time_executed),
    from_task := none, time_started := none, time_ended := none,
    expiry := some expiry, args := some (some targs), kwargs := some (some tkwargs),
    status := some (some PENDING), result := none, params := some params }

/-- The expiry computed by `create_task` (source lines 406-409): an
explicit `expiry` argument wins, else a truthy `job.timeout` (a zero
`timedelta` is falsy), else no expiry. -/
def computeExpiry (expiry : Option ExpiryArg) (timeout : Option Int) (start : Time) : Option Time :=
  match expiry with
  | some e => some (get_datetime e start)
  | none =>
    match timeout with
    | some t => if t != 0 then some (get_datetime (ExpiryArg.delta t) start) else none
    | none => none

/-- `TaskBackend.create_task` (source lines 377-416).  `wallclock` is
the `datetime.now()` reading taken while the coroutine runs and
`freshId` the value `create_task_id()` would produce if a done task
needs re-keying.  The result carries the updated backend, the backend
effects in call order, and the task id (`None` when the request was
absorbed); an unknown job name is the `TaskNotAvailable` error. -/
def create_task (b : Backend) (jobname : String) (targs : Option (List PyValue))
    (tkwargs : Option (List (String × PyValue))) (expiry : Option ExpiryArg)
    (params : List (String × PyValue)) (wallclock : Time) (freshId : String) :
    Except String (Backend × List BEvent × Option String) :=
  match registryFind b.registry jobname with
  | none => Except.error jobname
  | some job =>
    let targs := targs.getD []
    let tkwargs := tkwargs.getD []
    let task_id := job.make_task_id targs tkwargs
    let fetched := get_task b.store task_id
    let afterDone : Store × List BEvent × Option Task :=
      match fetched with
      | some t =>
        if t.done then
          let r := handle_task_done b.store t freshId
          (r.1, r.2, none)
        else
          (b.store, [], some t)
      | none => (b.store, [], none)
    match afterDone.2.2 with
    | some _ =>
      Except.ok ({ b with store := afterDone.1 }, afterDone.2.1, none)
    | none =>
      let entries1 := advanceEntry b.entries job.name none wallclock
      let time_executed := wallclock
      let f := pendingFields job time_executed (computeExpiry expiry job.timeout time_executed)
        targs tkwargs params
      let store2 := save_task afterDone.1 task_id f
      Except.ok ({ b with store := store2, entries := entries1 },
                 afterDone.2.1 ++ [BEvent.saveTask task_id f], some task_id)

/-- `TaskBackend._run_job` (source lines 645-651): run `create_task`
and, when it resulted in a task id, `put_task` it. -/
def run_job (b : Backend) (jobname : String) (targs : Option (List PyValue))
    (tkwargs : Option (List (String × PyValue))) (expiry : Option ExpiryArg)
    (params : List (String × PyValue)) (wallclock : Time) (freshId : String) :
    Except String (Backend × List BEvent × Option String) :=
  match create_task b jobname targs tkwargs expiry params wallclock freshId with
  | Except.error e => Except.error e
  | Except.ok (b1, ev, some tid) => Except.ok (b1, ev ++ [BEvent.putTask tid], some tid)
  | Except.ok (b1, ev, none) => Except.ok (b1, ev, none)

/-- The backend reached by a `create_task` result (the state is
unchanged on a `TaskNotAvailable` error). -/
def ctBackend (b : Backend) (r : Except String (Backend × List BEvent × Option String)) : Backend :=
  match r with
  | Except.ok p => p.1
  | Except.error _ => b

/-- The task id a `create_task` result resolves to. -/
def ctId (r : Except String (Backend × List BEvent × Option String)) : Option String :=
  match r with
  | Except.ok p => p.2.2
  | Except.error _ => none

/-- The backend effects of a `create_task` result. -/
def ctEvents (r : Except String (Backend × List BEvent × Option String)) : List BEvent :=
  match r with
  | Except.ok p => p.2.1
  | Except.error _ => []

/-! ## The task executor (`_execute_task`) -/

/-- The outcome of `job(consumer, *task.args, **task.kwargs)`: a
normal value, a raised `TaskTimeout`, or any other failure (a raised
exception or a failed asynchronous result; both reach the executor as
a failure, `maybe_failure` of the exception info in the raised case). -/
inductive BodyOutcome where
  | value (v : PyValue)
  | timeout
  | failure (msg : String)
  deriving DecidableEq, Repr

/-- One observable effect of the executor, recorded in call order. -/
inductive ExecEvent where
  | save (tid : String) (f : SaveFields)
  | onStart
  | runBody
  | logFailure
  | onFinish
  | doneTask (tid : String)
  deriving DecidableEq, Repr

/-- The keyword arguments of the executor's `STARTED` save
(source lines 598-599). -/
def startedFields (now : Time) : SaveFields :=
  { SaveFields.empty with status := some (some STARTED), time_started := some (some now) }

/-- The keyword arguments of the executor's terminal save
(source lines 617-618). -/
def finalFields (time_ended : Time) (status : String) (result : Option PyValue) : SaveFields :=
  { SaveFields.empty with time_ended := some (some time_ended),
                          status := some (some status), result := some result }

/-- The `str()` of the `RuntimeError` raised when the task's job name
is not in the registry (source lines 591-592). -/
def notInRegistry (name : Option String) : String :=
  "Task " ++ (name.getD "None") ++ " not in registry"

/-- The tail of the executor run after the job body returned: outcome
classification (source lines 605-620) followed by the terminal save,
`on_finish_task`, the `_done_task` post and the final yield. -/
def bodyEvents (task_id : String) (now now2 : Time) (body : BodyOutcome) : List ExecEvent :=
  match body with
  | BodyOutcome.value v =>
    [ExecEvent.save task_id (finalFields now2 SUCCESS (some v)),
     ExecEvent.onFinish, ExecEvent.doneTask task_id]
  | BodyOutcome.timeout =>
    [ExecEvent.save task_id (finalFields now REVOKED none),
     ExecEvent.onFinish, ExecEvent.doneTask task_id]
  | BodyOutcome.failure m =>
    [ExecEvent.logFailure,
     ExecEvent.save task_id (finalFields now FAILURE (some (PyValue.vstr m))),
     ExecEvent.onFinish, ExecEvent.doneTask task_id]

/-- `TaskBackend._execute_task` (source lines 578-622), run on a
compute thread.  `now` is the `datetime.now()` reading taken on entry
(the initial `time_ended`), `body` the outcome of the job body, and
`now2` the `datetime.now()` reading after a normal return.  The result
lists the executor's effects in order together with the yielded id.

Control flow of the source: the `RuntimeError` for a missing job is
caught by the bare `except` and becomes a failure result saved as
`FAILURE` (the consumer was already assigned); a task at or past
`STARTED` precedence resets the consumer, so nothing is saved; an
expired task raises `TaskTimeout` before the `STARTED` save, becoming
`REVOKED`; otherwise the body runs after the `STARTED` save and
`on_start_task`, and the outcome is classified by `is_failure` and the
status variable. -/
def execute_task (reg : Registry) (task : Task) (now : Time)
    (body : BodyOutcome) (now2 : Time) : List ExecEvent × Option String :=
  let task_id := task.id
  let jobLookup : Option Job :=
    match task.name with
    | some n => registryFind reg n
    | none => none
  match jobLookup with
  | none =>
    ([ExecEvent.logFailure,
      ExecEvent.save task_id (finalFields now FAILURE (some (PyValue.vstr (notInRegistry task.name)))),
      ExecEvent.onFinish, ExecEvent.doneTask task_id], some task_id)
  | some _ =>
    if PREC_STARTED < task.status_code then
      let expired : Bool :=
        match task.expiry with
        | some e => decide (e < now)
        | none => false
      if expired then
        ([ExecEvent.save task_id (finalFields now REVOKED none),
          ExecEvent.onFinish, ExecEvent.doneTask task_id], some task_id)
      else
        ([ExecEvent.save task_id (startedFields now), ExecEvent.onStart, ExecEvent.runBody] ++
           bodyEvents task_id now now2 body, some task_id)
    else
      ([ExecEvent.doneTask task_id], some task_id)

/-! ## The worker pull loop (`may_pool_task` / `_done_task`)

The loop state visible on the worker event loop: the
`concurrent_requests` counter (a `local_property` of the backend), the
distributed queue (`get_task()` with no id dequeues its head; modelled
from the spec's dequeue contract), and the tasks handed to the compute
pool by `thread_pool.apply_async`. -/

/-- The event-loop-visible state of one worker's pull loop. -/
structure LoopState where
  cr : Int
  queue : List Task
  dispatched : List Task
  deriving DecidableEq, Repr

/-- What one iteration of the `while worker.running` loop does:
either leave the loop (`exit`, followed by the `call_soon` re-arm), or
come back around (`again`), recording whether the iteration suspended
at a `yield` and whether it logged the no-thread-pool warning. -/
inductive IterResult where
  | exit (s : LoopState)
  | again (s : LoopState) (suspended : Bool) (warned : Bool)
  deriving DecidableEq, Repr

/-- One iteration of `may_pool_task`'s `while` loop (source lines
563-575): stop when the worker is no longer running; warn and loop
when no thread pool is attached; under the backlog, suspend at
`yield self.get_task()` and dispatch the dequeued task if any;
`break` when the backlog is reached. -/
def mayPoolIter (running hasPool : Bool) (backlog : Int) (s : LoopState) : IterResult :=
  if running then
    if hasPool then
      if s.cr < backlog then
        match s.queue with
        | t :: rest =>
          IterResult.again { cr := s.cr + 1, queue := rest, dispatched := s.dispatched ++ [t] } true false
        | [] => IterResult.again s true false
      else IterResult.exit s
    else IterResult.again s false true
  else IterResult.exit s

/-- One invocation of `TaskBackend.may_pool_task` (source lines
558-576), iterated with explicit fuel.  The invocation finishes when
the `while` loop is left and `call_soon` re-arms the poller, and then
reports the final state, the number of suspensions and the number of
warnings; `none` means the loop was still going when the fuel ran out. -/
def may_pool_task (running hasPool : Bool) (backlog : Int) :
    Nat → LoopState → Nat → Nat → Option (LoopState × Nat × Nat)
  | 0, _, _, _ => none
  | fuel + 1, s, susps, warns =>
    match mayPoolIter running hasPool backlog s with
    | IterResult.exit s1 => some (s1, susps, warns)
    | IterResult.again s1 susp warn =>
      may_pool_task running hasPool backlog fuel s1
        (susps + (if susp then 1 else 0)) (warns + (if warn then 1 else 0))

/-- `TaskBackend._done_task` (source lines 624-625), posted back to
the event loop thread via `call_soon_threadsafe`:
`self.local.concurrent_requests -= 1`. -/
def done_task (s : LoopState) : LoopState :=
  { s with cr := s.cr - 1 }

/-- One event-loop turn touching the pull-loop state: either one
iteration of the `may_pool_task` loop (under any worker condition), or
a posted `_done_task`. -/
inductive EvStep (backlog : Int) : LoopState → LoopState → Prop
  | poll (running hasPool : Bool) (s s1 : LoopState) (susp warn : Bool) :
      mayPoolIter running hasPool backlog s = IterResult.again s1 susp warn →
      EvStep backlog s s1
  | done (s : LoopState) : EvStep backlog s (done_task s)

/-- The pull-loop states reachable on the worker event loop from a
fresh worker (`concurrent_requests = 0`) with initial queue `q0`. -/
inductive ReachableLS (backlog : Int) (q0 : List Task) : LoopState → Prop
  | init : ReachableLS backlog q0 { cr := 0, queue := q0, dispatched := [] }
  | step {s s1 : LoopState} : ReachableLS backlog q0 s → EvStep backlog s s1 →
      ReachableLS backlog q0 s1

/-! ## The periodic scheduler -/

/-- Modelled from the spec: `remaining(last_run_at, cadence, now)`
from `pulsar.utils.timeutils` (not under the verified sources) is the
canonical time until the next scheduled fire,
`(last_run_at + cadence) - now` (spec §4.7). -/
def remaining (start ends_in now : Int) : Int :=
  start + ends_in - now

/-- Modelled from the spec: `timedelta_seconds` from
`pulsar.utils.timeutils` (not under the verified sources) converts a
timedelta to seconds, counting overdue (negative) deltas as zero so
that an overdue schedule reads as due (spec §4.7: a zero remainder
means due now). -/
def timedelta_seconds (d : Int) : Int :=
  if d < 0 then 0 else d

/-- The first `while` loop of `scheduled_last_run_at` (source lines
712-713): `while anchor <= last_run_at: anchor += run_every`.  The
source assumes a positive `run_every`; a non-positive one would make
the Python loop diverge, so it stops the recursion here. -/
def bumpUp (a last re : Int) : Int :=
  if h : 0 < re ∧ a ≤ last then bumpUp (a + re) last re else a
termination_by (last + re - a).toNat
decreasing_by simp_wf; omega

/-- The second `while` loop of `scheduled_last_run_at` (source lines
714-715): `while anchor > last_run_at: anchor -= run_every`. -/
def bumpDown (a last re : Int) : Int :=
  if h : 0 < re ∧ last < a then bumpDown (a - re) last re else a
termination_by (a - last).toNat
decreasing_by simp_wf; omega

/-- `SchedulerEntry.scheduled_last_run_at` (source lines 700-719):
with an anchor set, realign the anchor by whole cadences into
`(last_run_at - run_every, last_run_at]` and store it back into the
schedule (the property mutates `self.schedule.anchor`); the division
is Python's `int()` of a float quotient of the two non-negative
second counts. -/
def scheduled_last_run_at (e : SchedulerEntry) : Time × SchedulerEntry :=
  match e.schedule.anchor with
  | none => (e.last_run_at, e)
  | some anchor =>
    let re := e.schedule.run_every
    let times := timedelta_seconds (e.last_run_at - anchor) / timedelta_seconds re
    if times ≠ 0 then
      let a1 := anchor + times * re
      let a2 := bumpUp a1 e.last_run_at re
      let a3 := bumpDown a2 e.last_run_at re
      (a3, { e with schedule := { e.schedule with anchor := some a3 } })
    else
      (anchor, e)

/-- `Schedule.is_due(last_run_at, now)` (source lines 664-674). -/
def Schedule.is_due (s : Schedule) (last_run_at : Time) (now : Time) : Bool × Int :=
  let rem := timedelta_seconds (remaining last_run_at s.run_every now)
  if rem = 0 then (true, timedelta_seconds s.run_every) else (false, rem)

/-- `SchedulerEntry.is_due(now)` (source lines 738-739), returning the
due flag, the seconds to the next run, and the entry as mutated by
`scheduled_last_run_at`.  A missing `now` reads the wall clock. -/
def SchedulerEntry.is_due (e : SchedulerEntry) (now : Option Time) (wallclock : Time) :
    (Bool × Int) × SchedulerEntry :=
  let r := scheduled_last_run_at e
  (Schedule.is_due r.2.schedule r.1 (now.getD wallclock), r.2)

/-- The state threaded through `tick`'s `for` loop: the backend, the
effects so far, `remaining_times`, and the fresh ids available to the
`run_job` calls. -/
structure TickAcc where
  b : Backend
  events : List BEvent
  rems : List Int
  fresh : List String

/-- One iteration of `tick`'s `for entry in itervalues(self.entries)`
loop (source lines 494-499): ask the entry whether it is due (which
may realign its anchor in place), fire `run_job(entry.name)` when due
(its errback swallows failures), and collect a truthy
`next_time_to_run`. -/
def tick_step (now : Option Time) (wallclock : Time) (acc : TickAcc) (name : String) : TickAcc :=
  match (acc.b.entries.getD []).find? (fun p => p.1 == name) with
  | none => acc
  | some p =>
    let r := SchedulerEntry.is_due p.2 now wallclock
    let isDue := r.1.1
    let nt := r.1.2
    let b1 := { acc.b with entries := setEntry acc.b.entries name r.2 }
    let fired : Backend × List BEvent × List String :=
      if isDue then
        let f := acc.fresh.headD ""
        let fs := acc.fresh.tail
        match run_job b1 name none none none [] wallclock f with
        | Except.ok q => (q.1, q.2.1, fs)
        | Except.error _ => (b1, [], fs)
      else (b1, [], acc.fresh)
    { b := fired.1, events := acc.events ++ fired.2.1,
      rems := if nt != 0 then acc.rems ++ [nt] else acc.rems,
      fresh := fired.2.2 }

/-- `TaskBackend.tick(now=None)` (source lines 482-504): nothing
happens unless `schedule_periodic`; otherwise every entry is polled
(and fired when due) and `next_run` becomes `now or datetime.now()`
plus the least collected remaining time.  `wallclock` is the
`datetime.now()` reading and `fresh` the ids `create_task_id()` hands
to re-keying during the fired jobs. -/
def tick (b : Backend) (now : Option Time) (wallclock : Time) (fresh : List String) :
    Backend × List BEvent :=
  if b.schedule_periodic then
    let names := (b.entries.getD []).map Prod.fst
    let acc := names.foldl (tick_step now wallclock)
      { b := b, events := [], rems := [], fresh := fresh }
    let nr0 := (now.getD wallclock)
    let nr :=
      match acc.rems with
      | [] => nr0
      | r :: rs => nr0 + rs.foldl min r
    ({ acc.b with next_run := nr }, acc.events)
  else
    (b, [])

/-! ## Concrete fixtures for the witnesses and counterexamples -/

/-- The job name of the example regular job. -/
def exName : String := "x"

/-- The deterministic task id of the example job (the spec's `H(x,1,2)`). -/
def exHId : String := "H"

/-- The fresh id `create_task_id()` hands out in the examples. -/
def exFreshId : String := "f1"

/-- An example regular job with a deterministic task id. -/
def exJob : Job :=
  { name := exName, jtype := JobType.regular, timeout := none, run_every := none,
    anchor := none, make_task_id := fun _ _ => exHId }

/-- A pending (not done) task stored under the deterministic id. -/
def exPendingTask : Task :=
  { id := exHId, name := some exName, time_executed := some 1, from_task := none,
    time_started := none, time_ended := none, expiry := none, args := some [],
    kwargs := some [], status := some PENDING, result := none, params := [] }

/-- A successfully finished task stored under the deterministic id,
with result `42`. -/
def exDoneTask : Task :=
  { id := exHId, name := some exName, time_executed := some 1, from_task := none,
    time_started := some 2, time_ended := some 3, expiry := none, args := some [],
    kwargs := some [], status := some SUCCESS, result := some (PyValue.vint 42), params := [] }

/-- An example backend holding one job and one stored task. -/
def exBackend (t : Task) : Backend :=
  { registry := [exJob], entries := none, store := [t],
    schedule_periodic := false, next_run := 0 }

/-- A task whose `time_executed` is the datetime `5`. -/
def exJsonTask : Task :=
  { id := exHId, name := some exName, time_executed := some 5, from_task := none,
    time_started := none, time_ended := none, expiry := none, args := some [],
    kwargs := some [], status := some SUCCESS, result := some (PyValue.vint 42), params := [] }

/-- A task whose status is the `UNKNOWN` token, which the precedence
mapping does not contain. -/
def exUnknownTask : Task :=
  { newTask exHId with status := some UNKNOWN }

/-- A task of a registered job already at `STARTED` status. -/
def exStartedTask : Task :=
  { exPendingTask with status := some STARTED }

/-- A pending task of the example job whose expiry `4` is in the past
at executor time `5`. -/
def exExpiredTask : Task :=
  { exPendingTask with expiry := some 4 }

/-- The name of the example periodic job. -/
def exPName : String := "p"

/-- The deterministic task id of the example periodic job. -/
def exPId : String := "idp"

/-- An example periodic job with cadence 60 and no anchor. -/
def exPJob : Job :=
  { name := exPName, jtype := JobType.periodic, timeout := none, run_every := some 60,
    anchor := none, make_task_id := fun _ _ => exPId }

/-- The scheduler entry of the example periodic job: last run at 0,
never counted. -/
def exEntry : SchedulerEntry :=
  { name := exPName, schedule := { run_every := 60, anchor := none },
    last_run_at := 0, total_run_count := 0 }

/-- An example backend scheduling the periodic job, with an empty store. -/
def exPBackend : Backend :=
  { registry := [exPJob], entries := some [(exPName, exEntry)], store := [],
    schedule_periodic := true, next_run := 0 }

/-! ## Store lemmas -/

/-- A filter keeping everything a predicate selects does not change
the first match of that predicate. -/
theorem find?_filter_imp {α : Type} (q p : α → Bool) (l : List α)
    (h : ∀ a, q a = true → p a = true) : (l.filter p).find? q = l.find? q := by
  induction l with
  | nil => rfl
  | cons a l ih =>
    by_cases hp : p a = true
    · cases hq : q a with
      | true => simp [List.filter_cons, hp, List.find?_cons, hq]
      | false => simp [List.filter_cons, hp, List.find?_cons, hq, ih]
    · have hq : q a = false := by
        cases hqa : q a with
        | true => exact absurd (h a hqa) (by simp [hp])
        | false => rfl
      simp [List.filter_cons, hp, List.find?_cons, hq, ih]

/-- A filter dropping everything a predicate selects erases every
match of that predicate. -/
theorem find?_filter_none {α : Type} (q p : α → Bool) (l : List α)
    (h : ∀ a, q a = true → p a = false) : (l.filter p).find? q = none := by
  induction l with
  | nil => rfl
  | cons a l ih =>
    by_cases hp : p a = true
    · have hq : q a = false := by
        cases hqa : q a with
        | true => exact absurd (h a hqa) (by simp [hp])
        | false => rfl
      simp [List.filter_cons, hp, List.find?_cons, hq, ih]
    · simp [List.filter_cons, hp, List.find?_cons, ih]

/-- Deleting ids other than `j` leaves the lookup of `j` unchanged. -/
theorem get_task_delete_of_not_mem (s : Store) (ids : List String) (j : String)
    (h : ids.contains j = false) : get_task (delete_tasks s ids) j = get_task s j := by
  refine find?_filter_imp _ _ s (fun t hq => ?_)
  have ht : t.id = j := by simpa using hq
  simp only [ht]
  simpa using h

/-- Deleting `j` erases the lookup of `j`. -/
theorem get_task_delete_of_mem (s : Store) (ids : List String) (j : String)
    (h : ids.contains j = true) : get_task (delete_tasks s ids) j = none := by
  refine find?_filter_none _ _ s (fun t hq => ?_)
  have ht : t.id = j := by simpa using hq
  simp only [ht, Bool.not_eq_false']
  simpa using h

/-- Saving under an absent id appends the new record. -/
theorem save_task_absent (s : Store) (i : String) (f : SaveFields)
    (h : get_task s i = none) :
    save_task s i f = s ++ [applyFields (newTask i) f] := by
  unfold save_task
  rw [h]

/-- Lookup distributes over store concatenation. -/
theorem get_task_append (s1 s2 : Store) (j : String) :
    get_task (s1 ++ s2) j = ((get_task s1 j).or (get_task s2 j)) := by
  simp [get_task, List.find?_append]

/-- Lookup in a one-record store. -/
theorem get_task_single (t : Task) (j : String) :
    get_task [t] j = if t.id = j then some t else none := by
  simp [get_task, List.find?_cons]
  split <;> simp_all

/-- Re-keying a task's full attribute dictionary under a fresh id
yields the same task under the fresh id. -/
theorem applyFields_newTask_allFields (i : String) (t : Task) :
    applyFields (newTask i) (allFields t) = { t with id := i } := rfl

/-- A found task carries the looked-up id. -/
theorem get_task_id (s : Store) (j : String) (t : Task)
    (h : get_task s j = some t) : t.id = j := by
  have := List.find?_some h
  simpa using this

/-! ## C1 and C2: deduplication in `create_task` -/

/-- C1: when `create_task` finds, under the id computed for the
request, an existing task whose status is not in `READY_STATES`, the
whole `run_job` run yields no id, performs no backend effect at all
(no `save_task`, no `put_task`), and leaves the backend — in
particular the store and the pre-existing task under that id —
unchanged. -/
theorem claim1_dedup_live (b : Backend) (jobname : String)
    (targs : Option (List PyValue)) (tkwargs : Option (List (String × PyValue)))
    (expiry : Option ExpiryArg) (params : List (String × PyValue))
    (wallclock : Time) (freshId : String) (job : Job) (t : Task)
    (hjob : registryFind b.registry jobname = some job)
    (hid : get_task b.store (job.make_task_id (targs.getD []) (tkwargs.getD [])) = some t)
    (hnotdone : t.done = false) :
    run_job b jobname targs tkwargs expiry params wallclock freshId = Except.ok (b, [], none)
    ∧ get_task b.store (job.make_task_id (targs.getD []) (tkwargs.getD [])) = some t := by
  refine ⟨?_, hid⟩
  unfold run_job create_task
  rw [hjob]
  simp only [hid, hnotdone]
  rfl

/-- C2: when `create_task` finds a done task under the computed id,
`handle_task_done` deletes the old record first, re-saves the whole
record — every field except `id`, `status` and `result` included —
under the fresh id, and `create_task` then proceeds to save a new
`PENDING` task under the original deterministic id and to resolve to
that id. -/
theorem claim2_dedup_done (b : Backend) (jobname : String)
    (targs : Option (List PyValue)) (tkwargs : Option (List (String × PyValue)))
    (expiry : Option ExpiryArg) (params : List (String × PyValue))
    (wallclock : Time) (freshId : String) (job : Job) (t : Task) (tid : String)
    (hjob : registryFind b.registry jobname = some job)
    (htid : job.make_task_id (targs.getD []) (tkwargs.getD []) = tid)
    (hid : get_task b.store tid = some t)
    (hdone : t.done = true)
    (hfresh1 : freshId ≠ tid)
    (hfresh2 : get_task b.store freshId = none) :
    (∃ f : SaveFields, f.status = some (some PENDING) ∧
      ctEvents (create_task b jobname targs tkwargs expiry params wallclock freshId) =
        [BEvent.deleteTasks [tid], BEvent.saveTask freshId (allFields t), BEvent.saveTask tid f])
    ∧ ctId (create_task b jobname targs tkwargs expiry params wallclock freshId) = some tid
    ∧ get_task (ctBackend b (create_task b jobname targs tkwargs expiry params wallclock freshId)).store
        freshId = some { t with id := freshId }
    ∧ (∃ u : Task, get_task (ctBackend b (create_task b jobname targs tkwargs expiry params
        wallclock freshId)).store tid = some u ∧ u.status = some PENDING) := by
  have htid_t : t.id = tid := get_task_id _ _ _ hid
  have hcontains : [tid].contains freshId = false := by
    simpa using fun hc : freshId = tid => hfresh1 hc
  have hfresh3 : get_task (delete_tasks b.store [tid]) freshId = none := by
    rw [get_task_delete_of_not_mem _ _ _ hcontains]
    exact hfresh2
  have hgone : get_task (delete_tasks b.store [tid]) tid = none :=
    get_task_delete_of_mem _ _ _ (by simp)
  unfold create_task
  rw [hjob]
  simp only [htid, hid, hdone, if_true, handle_task_done]
  rw [htid_t]
  rw [save_task_absent _ _ _ hfresh3, applyFields_newTask_allFields]
  have hs2 : get_task (delete_tasks b.store [tid] ++ [{ t with id := freshId }]) tid = none := by
    rw [get_task_append, hgone, get_task_single]
    simp [hfresh1]
  rw [save_task_absent _ _ _ hs2]
  refine ⟨⟨pendingFields job wallclock (computeExpiry expiry job.timeout wallclock)
      (targs.getD []) (tkwargs.getD []) params, rfl, by simp [ctEvents]⟩,
    by simp [ctId], ?_, ?_⟩
  · simp only [ctBackend]
    rw [List.append_assoc, get_task_append, hfresh3, get_task_append, get_task_single]
    simp [hfresh1]
  · refine ⟨applyFields (newTask tid) (pendingFields job wallclock
      (computeExpiry expiry job.timeout wallclock) (targs.getD []) (tkwargs.getD []) params),
      ?_, rfl⟩
    simp only [ctBackend]
    rw [List.append_assoc, get_task_append, hgone, get_task_append, get_task_single,
      get_task_single]
    simp [hfresh1]
    rfl

/-- Witness for C1: a second request while the first `H`-task is still
pending resolves to no id and leaves the backend untouched. -/
theorem claim1_dedup_live_witness :
    (registryFind (exBackend exPendingTask).registry exName = some exJob
      ∧ get_task (exBackend exPendingTask).store (exJob.make_task_id [] []) = some exPendingTask
      ∧ exPendingTask.done = false)
    ∧ run_job (exBackend exPendingTask) exName none none none [] 10 exFreshId =
        Except.ok (exBackend exPendingTask, [], none) := by
  refine ⟨⟨rfl, rfl, rfl⟩, ?_⟩
  exact (claim1_dedup_live (exBackend exPendingTask) exName none none none [] 10 exFreshId
    exJob exPendingTask rfl rfl rfl).1

/-- Witness for C2: a request after the `H`-task finished with result
`42` re-keys the done record to `f1` intact and resolves to `H`. -/
theorem claim2_dedup_done_witness :
    (get_task (exBackend exDoneTask).store exHId = some exDoneTask
      ∧ exDoneTask.done = true
      ∧ exFreshId ≠ exHId
      ∧ get_task (exBackend exDoneTask).store exFreshId = none)
    ∧ ctId (create_task (exBackend exDoneTask) exName none none none [] 10 exFreshId) = some exHId
    ∧ get_task (ctBackend (exBackend exDoneTask)
        (create_task (exBackend exDoneTask) exName none none none [] 10 exFreshId)).store
        exFreshId = some { exDoneTask with id := exFreshId } := by
  have h := claim2_dedup_done (exBackend exDoneTask) exName none none none [] 10 exFreshId
    exJob exDoneTask exHId rfl rfl rfl rfl (by decide) rfl
  exact ⟨⟨rfl, rfl, by decide, rfl⟩, h.2.1, h.2.2.1⟩

/-! ## C9: `Task.tojson` -/

/-- C9 counterexample: `tojson` is `self.__dict__.copy()`, so the value
stored under `time_executed` is the raw datetime object — not a string,
hence not an ISO-8601 string as the claim states. -/
theorem claim9_counterexample :
    (Task.tojson exJsonTask).lookup ("time_executed") = some (AttrValue.adatetime 5)
    ∧ ((Task.tojson exJsonTask).lookup ("time_executed")).map AttrValue.isStr = some false := by
  exact ⟨by decide, by decide⟩

/-- C9 amended: `tojson` returns the attribute dictionary with every
data-model attribute as a key (`params` besides), but with the raw
attribute values: timestamps stay datetime values (or `None`), `status`
is the stored status string, `result` the stored result value. -/
theorem claim9_tojson_raw (t : Task) :
    (Task.tojson t).map Prod.fst =
      ["id", "name", "time_executed", "from_task", "time_started", "time_ended",
       "expiry", "args", "kwargs", "status", "result", "params"]
    ∧ (Task.tojson t).lookup ("id") = some (AttrValue.astr t.id)
    ∧ (Task.tojson t).lookup ("name") = some (attrOfOptStr t.name)
    ∧ (Task.tojson t).lookup ("time_executed") = some (attrOfOptTime t.time_executed)
    ∧ (Task.tojson t).lookup ("from_task") = some (attrOfOptStr t.from_task)
    ∧ (Task.tojson t).lookup ("time_started") = some (attrOfOptTime t.time_started)
    ∧ (Task.tojson t).lookup ("time_ended") = some (attrOfOptTime t.time_ended)
    ∧ (Task.tojson t).lookup ("expiry") = some (attrOfOptTime t.expiry)
    ∧ (Task.tojson t).lookup ("args") = some (attrOfOptList t.args)
    ∧ (Task.tojson t).lookup ("kwargs") = some (attrOfOptDict t.kwargs)
    ∧ (Task.tojson t).lookup ("status") = some (attrOfOptStr t.status)
    ∧ (Task.tojson t).lookup ("result") = some (attrOfOptVal t.result)
    ∧ (Task.tojson t).lookup ("params") = some (AttrValue.adict t.params) := by
  refine ⟨rfl, rfl, ?_, ?_, ?_, ?_, ?_, ?_, ?_, ?_, ?_, ?_, ?_⟩ <;> rfl

/-! ## C10: totality of `Task.status_code` -/

/-- C10: `status_code` is a total function of the task: statuses inside
the precedence mapping get their mapped precedence, and every other
status value — the `UNKNOWN` token, arbitrary strings, and the `None`
of a bare-constructed task — gets the `UNKNOWN_STATE` precedence. -/
theorem claim10_status_code_total (t : Task) :
    (∀ s p, t.status = some s → PRECEDENCE_MAPPING s = some p → t.status_code = p)
    ∧ (∀ s, t.status = some s → PRECEDENCE_MAPPING s = none → t.status_code = UNKNOWN_STATE)
    ∧ (t.status = none → t.status_code = UNKNOWN_STATE) := by
  refine ⟨?_, ?_, ?_⟩
  · intro s p hs hp
    simp [Task.status_code, hs, hp]
  · intro s hs hp
    simp [Task.status_code, hs, hp]
  · intro h
    simp [Task.status_code, h]

/-- Witness for C10 in all three cases: a mapped status (`STARTED`),
the unmapped `UNKNOWN` token, and the `None` status of a
bare-constructed task. -/
theorem claim10_status_code_total_witness :
    ((exStartedTask.status = some STARTED ∧ PRECEDENCE_MAPPING STARTED = some 3
        ∧ exStartedTask.status_code = 3)
      ∧ (exUnknownTask.status = some UNKNOWN ∧ PRECEDENCE_MAPPING UNKNOWN = none
        ∧ exUnknownTask.status_code = UNKNOWN_STATE))
    ∧ ((newTask exHId).status = none ∧ (newTask exHId).status_code = UNKNOWN_STATE) :=
  ⟨⟨⟨rfl, by decide, (claim10_status_code_total exStartedTask).1 STARTED 3 rfl (by decide)⟩,
    ⟨rfl, by decide, (claim10_status_code_total exUnknownTask).2.1 UNKNOWN rfl (by decide)⟩⟩,
   ⟨rfl, (claim10_status_code_total (newTask exHId)).2.2 rfl⟩⟩

/-! ## C3, C4 and C5: the executor -/

/-- C3: the executor invokes the job body (and with it the `STARTED`
save) only on tasks whose `status_code` exceeds the `STARTED`
precedence; a task of a registered job failing that check produces no
`save_task` whatsoever — the only effect is the `_done_task` post that
releases the backlog slot (followed by the final yield of the id). -/
theorem claim3_started_precedence_guard (reg : Registry) (task : Task) (now : Time)
    (body : BodyOutcome) (now2 : Time) :
    (ExecEvent.runBody ∈ (execute_task reg task now body now2).1 →
      PREC_STARTED < task.status_code)
    ∧ (∀ n job, task.name = some n → registryFind reg n = some job →
        task.status_code ≤ PREC_STARTED →
        execute_task reg task now body now2 = ([ExecEvent.doneTask task.id], some task.id)) := by
  constructor
  · intro hmem
    by_cases hc : PREC_STARTED < task.status_code
    · exact hc
    · exfalso
      revert hmem
      unfold execute_task
      cases hn : task.name with
      | none => simp [bodyEvents]
      | some n =>
        cases hr : registryFind reg n with
        | none => simp [hr]
        | some job => simp [hr, hc]
  · intro n job hn hjob hle
    unfold execute_task
    rw [hn]
    simp only [hjob]
    rw [if_neg (Nat.not_lt.mpr hle)]

/-- Witness for C3: an already-`STARTED` task is skipped with no save
and a `_done_task` post; and a run that did reach the body was a run
on a task past the guard. -/
theorem claim3_started_precedence_guard_witness :
    ((exStartedTask.name = some exName
      ∧ registryFind [exJob] exName = some exJob
      ∧ exStartedTask.status_code ≤ PREC_STARTED)
    ∧ execute_task [exJob] exStartedTask 5 (BodyOutcome.value (PyValue.vint 7)) 6 =
        ([ExecEvent.doneTask exStartedTask.id], some exStartedTask.id))
    ∧ (ExecEvent.runBody ∈
        (execute_task [exJob] exPendingTask 5 (BodyOutcome.value (PyValue.vint 7)) 6).1
      ∧ PREC_STARTED < exPendingTask.status_code) :=
  ⟨⟨⟨rfl, rfl, by decide⟩,
    (claim3_started_precedence_guard [exJob] exStartedTask 5 (BodyOutcome.value (PyValue.vint 7))
      6).2 exName exJob rfl rfl (by decide)⟩,
   ⟨by decide,
    (claim3_started_precedence_guard [exJob] exPendingTask 5 (BodyOutcome.value (PyValue.vint 7))
      6).1 (by decide)⟩⟩

/-- C4: outcome classification of a run body.  A body raising
`TaskTimeout` ends in a `REVOKED` save; any other failure is logged
once via `result.log()` and ends in a `FAILURE` save whose result is
the stringified failure; a normal return ends in a `SUCCESS` save
carrying the returned value.  In all three cases the terminal save
carries a `time_ended` and `on_finish_task` runs after it. -/
theorem claim4_outcome_classification (reg : Registry) (task : Task) (now now2 : Time)
    (n : String) (job : Job)
    (hn : task.name = some n) (hjob : registryFind reg n = some job)
    (hcode : PREC_STARTED < task.status_code)
    (hexp : ∀ e, task.expiry = some e → ¬ e < now) :
    (∀ v, execute_task reg task now (BodyOutcome.value v) now2 =
      ([ExecEvent.save task.id (startedFields now), ExecEvent.onStart, ExecEvent.runBody,
        ExecEvent.save task.id (finalFields now2 SUCCESS (some v)),
        ExecEvent.onFinish, ExecEvent.doneTask task.id], some task.id))
    ∧ (execute_task reg task now BodyOutcome.timeout now2 =
      ([ExecEvent.save task.id (startedFields now), ExecEvent.onStart, ExecEvent.runBody,
        ExecEvent.save task.id (finalFields now REVOKED none),
        ExecEvent.onFinish, ExecEvent.doneTask task.id], some task.id))
    ∧ (∀ m, execute_task reg task now (BodyOutcome.failure m) now2 =
      ([ExecEvent.save task.id (startedFields now), ExecEvent.onStart, ExecEvent.runBody,
        ExecEvent.logFailure,
        ExecEvent.save task.id (finalFields now FAILURE (some (PyValue.vstr m))),
        ExecEvent.onFinish, ExecEvent.doneTask task.id], some task.id)) := by
  have hexpired : (match task.expiry with
      | some e => decide (e < now)
      | none => false) = false := by
    cases he : task.expiry with
    | none => rfl
    | some e => simpa using hexp e he
  refine ⟨?_, ?_, ?_⟩ <;>
    first
      | (intro v
         unfold execute_task
         rw [hn]
         simp only [hjob]
         rw [if_pos hcode, hexpired]
         rfl)
      | (unfold execute_task
         rw [hn]
         simp only [hjob]
         rw [if_pos hcode, hexpired]
         rfl)

/-- Witness for C4 at a pending task of the example job with no expiry. -/
theorem claim4_outcome_classification_witness :
    (exPendingTask.name = some exName
      ∧ registryFind [exJob] exName = some exJob
      ∧ PREC_STARTED < exPendingTask.status_code)
    ∧ execute_task [exJob] exPendingTask 5 BodyOutcome.timeout 6 =
      ([ExecEvent.save exPendingTask.id (startedFields 5), ExecEvent.onStart, ExecEvent.runBody,
        ExecEvent.save exPendingTask.id (finalFields 5 REVOKED none),
        ExecEvent.onFinish, ExecEvent.doneTask exPendingTask.id], some exPendingTask.id) :=
  ⟨⟨rfl, rfl, by decide⟩,
   (claim4_outcome_classification [exJob] exPendingTask 5 6 exName exJob rfl rfl (by decide)
     (fun e h => nomatch h)).2.1⟩

/-- C5: an expired task that has not reached `STARTED` precedence is
revoked without running: no `STARTED` save, no `time_started`, no body
invocation — only the terminal `REVOKED` save with a `None` result,
`on_finish_task`, and the `_done_task` post. -/
theorem claim5_expired_revoked (reg : Registry) (task : Task) (now now2 : Time)
    (body : BodyOutcome) (n : String) (job : Job) (e : Time)
    (hn : task.name = some n) (hjob : registryFind reg n = some job)
    (hcode : PREC_STARTED < task.status_code)
    (hexp : task.expiry = some e) (hlate : e < now) :
    execute_task reg task now body now2 =
      ([ExecEvent.save task.id (finalFields now REVOKED none),
        ExecEvent.onFinish, ExecEvent.doneTask task.id], some task.id) := by
  unfold execute_task
  rw [hn]
  simp only [hjob]
  rw [if_pos hcode, hexp]
  simp [hlate]

/-- Witness for C5: the expired pending task is revoked without any
`STARTED` save or body run. -/
theorem claim5_expired_revoked_witness :
    (exExpiredTask.name = some exName
      ∧ registryFind [exJob] exName = some exJob
      ∧ PREC_STARTED < exExpiredTask.status_code
      ∧ exExpiredTask.expiry = some 4 ∧ (4 : Time) < 5)
    ∧ execute_task [exJob] exExpiredTask 5 (BodyOutcome.value (PyValue.vint 7)) 6 =
      ([ExecEvent.save exExpiredTask.id (finalFields 5 REVOKED none),
        ExecEvent.onFinish, ExecEvent.doneTask exExpiredTask.id], some exExpiredTask.id) :=
  ⟨⟨rfl, rfl, by decide, rfl, by decide⟩,
   claim5_expired_revoked [exJob] exExpiredTask 5 6 (BodyOutcome.value (PyValue.vint 7))
     exName exJob 4 rfl rfl (by decide) rfl (by decide)⟩

/-! ## C6: the backlog bound -/

/-- C6: `concurrent_requests ≤ backlog` holds in every pull-loop state
reachable on the worker event loop: `may_pool_task` increments the
counter only inside the `concurrent_requests < self.backlog` guard (and
breaks once the bound is reached), and the only other touch is the
decrement of `_done_task`. -/
theorem claim6_backlog_bound (backlog : Int) (q0 : List Task) (s : LoopState)
    (hb : 0 ≤ backlog) (hr : ReachableLS backlog q0 s) : s.cr ≤ backlog := by
  induction hr with
  | init => exact hb
  | @step sa sb hr hst ih =>
    cases hst with
    | poll running hasPool _ _ susp warn heq =>
      unfold mayPoolIter at heq
      split at heq
      · split at heq
        · split at heq
          · split at heq
            · have hcr : sa.cr < backlog := by assumption
              cases heq
              show sa.cr + 1 ≤ backlog
              omega
            · cases heq
              exact ih
          · cases heq
        · cases heq
          exact ih
      · cases heq
    | done sa =>
      simp only [done_task]
      omega

/-- Witness for C6: from a fresh worker with backlog 1 and one queued
task, one dispatching iteration reaches the state with one concurrent
request, and the bound holds there. -/
theorem claim6_backlog_bound_witness :
    ((0 : Int) ≤ 1
      ∧ ReachableLS 1 [exPendingTask] { cr := 1, queue := [], dispatched := [exPendingTask] })
    ∧ ({ cr := 1, queue := [], dispatched := [exPendingTask] } : LoopState).cr ≤ 1 := by
  have hstep : EvStep 1 { cr := 0, queue := [exPendingTask], dispatched := [] }
      { cr := 1, queue := [], dispatched := [exPendingTask] } :=
    EvStep.poll true true _ _ true false rfl
  have hreach : ReachableLS 1 [exPendingTask] { cr := 1, queue := [], dispatched := [exPendingTask] } :=
    ReachableLS.step ReachableLS.init hstep
  exact ⟨⟨by decide, hreach⟩, claim6_backlog_bound 1 [exPendingTask] _ (by decide) hreach⟩

/-! ## C8: the pull loop with no thread pool attached -/

/-- C8 evaluation: with the worker running and no thread pool
attached, every iteration of `may_pool_task`'s `while` loop merely
logs the warning and loops on the unchanged state — it neither
suspends nor leaves the loop — so the invocation never reaches the
`call_soon` re-arm however much fuel it is given.  This contradicts
the claim that the poller logs, yields, and re-arms itself exactly
once per turn: the code busy-spins. -/
theorem claim8_no_pool_busy_spins (backlog : Int) (s : LoopState) :
    mayPoolIter true false backlog s = IterResult.again s false true
    ∧ ∀ (fuel susps warns : Nat),
        may_pool_task true false backlog fuel s susps warns = none := by
  constructor
  · rfl
  · intro fuel
    induction fuel with
    | zero => intro susps warns; rfl
    | succ k ih =>
      intro susps warns
      show may_pool_task true false backlog k s (susps + 0) (warns + 1) = none
      exact ih (susps + 0) (warns + 1)

/-! ## C7: entry advancement on a fired tick -/

/-- Updating the value stored under the found key rewrites exactly the
found entry of an association list. -/
theorem find?_map_update {β : Type} (l : List (String × β)) (name : String) (g : β → β)
    (p : String × β) (hf : l.find? (fun q => q.1 == name) = some p) :
    (l.map (fun q => if q.1 == name then (q.1, g q.2) else q)).find? (fun q => q.1 == name)
      = some (p.1, g p.2) := by
  induction l with
  | nil => simp at hf
  | cons a l ih =>
    cases hb : (a.1 == name) with
    | true =>
      simp only [List.find?_cons, hb] at hf
      injection hf with hf
      subst hf
      simp only [List.map_cons]
      rw [if_pos hb]
      simp only [List.find?_cons, hb]
    | false =>
      simp only [List.find?_cons, hb] at hf
      simp only [List.map_cons]
      rw [if_neg (by simp [hb])]
      simp only [List.find?_cons, hb]
      exact ih hf

/-- `advanceEntry` replaces the looked-up entry by its `next()`. -/
theorem lookupEntry_advanceEntry (es : Entries) (name : String) (now : Option Time)
    (w : Time) (e : SchedulerEntry) (he : lookupEntry es name = some e) :
    lookupEntry (advanceEntry es name now w) name = some (SchedulerEntry.next e now w) := by
  cases es with
  | none => simp [lookupEntry] at he
  | some l =>
    simp only [lookupEntry] at he
    cases hf : l.find? (fun p => p.1 == name) with
    | none =>
      rw [hf] at he
      simp at he
    | some p =>
      rw [hf] at he
      simp only [Option.map_some'] at he
      injection he with he
      simp only [advanceEntry, hf, Option.isSome_some, if_true]
      simp only [lookupEntry]
      rw [find?_map_update l name (fun x => SchedulerEntry.next x now w) p hf]
      simp [he]

/-- C7 amended: whenever a `create_task` run results in a task id (the
request was not absorbed by deduplication) and the job has a scheduler
entry, that entry is advanced exactly once by `entry.next()`:
`total_run_count` grows by exactly 1 and `last_run_at` becomes the
wall-clock reading at that moment — the `now` passed to `tick` is not
forwarded to the advancement.  (When `create_task` aborts on a live
duplicate, the entry is not advanced at all.) -/
theorem claim7_entry_advance (b : Backend) (jobname : String)
    (targs : Option (List PyValue)) (tkwargs : Option (List (String × PyValue)))
    (expiry : Option ExpiryArg) (params : List (String × PyValue))
    (wallclock : Time) (freshId : String) (tid : String) (e : SchedulerEntry)
    (hcreated : ctId (create_task b jobname targs tkwargs expiry params wallclock freshId) =
      some tid)
    (he : lookupEntry b.entries jobname = some e) :
    lookupEntry (ctBackend b (create_task b jobname targs tkwargs expiry params wallclock
        freshId)).entries jobname = some (SchedulerEntry.next e none wallclock)
    ∧ (SchedulerEntry.next e none wallclock).total_run_count = e.total_run_count + 1
    ∧ (SchedulerEntry.next e none wallclock).last_run_at = wallclock := by
  refine ⟨?_, rfl, rfl⟩
  cases hreg : registryFind b.registry jobname with
  | none =>
    unfold create_task at hcreated
    rw [hreg] at hcreated
    simp [ctId] at hcreated
  | some job =>
    have hjn : job.name = jobname := by simpa using List.find?_some hreg
    unfold create_task at hcreated ⊢
    simp only [hreg] at hcreated ⊢
    cases hf : get_task b.store (job.make_task_id (targs.getD []) (tkwargs.getD [])) with
    | some t =>
      simp only [hf] at hcreated ⊢
      cases hd : t.done with
      | false =>
        simp [hd, ctId] at hcreated
      | true =>
        simp only [hd, if_true] at hcreated ⊢
        simp only [ctBackend]
        rw [hjn]
        exact lookupEntry_advanceEntry b.entries jobname none wallclock e he
    | none =>
      simp only [hf] at hcreated ⊢
      simp only [ctBackend]
      rw [hjn]
      exact lookupEntry_advanceEntry b.entries jobname none wallclock e he

/-- C7 counterexample: `tick` at `now = 60` fires the due entry `p`,
but `create_task` advances the entry through `entry.next()` with no
argument, so `next()` reads the wall clock (100 here): afterwards
`last_run_at` is 100 and not the 60 that was passed to `tick`
(`total_run_count` did advance by exactly 1). -/
theorem claim7_counterexample :
    (lookupEntry (tick exPBackend (some 60) 100 [exFreshId]).1.entries exPName).map
        SchedulerEntry.last_run_at = some 100
    ∧ ((lookupEntry (tick exPBackend (some 60) 100 [exFreshId]).1.entries exPName).map
        SchedulerEntry.last_run_at == some 60) = false
    ∧ (lookupEntry (tick exPBackend (some 60) 100 [exFreshId]).1.entries exPName).map
        SchedulerEntry.total_run_count = some 1 := by
  refine ⟨by decide, by decide, by decide⟩

/-- Witness for the amended C7 at the example periodic backend:
`create_task` fired at wall clock 100 advances the entry to
`last_run_at = 100`, `total_run_count = 1`. -/
theorem claim7_entry_advance_witness :
    (ctId (create_task exPBackend exPName none none none [] 100 exFreshId) = some exPId
      ∧ lookupEntry exPBackend.entries exPName = some exEntry)
    ∧ lookupEntry (ctBackend exPBackend (create_task exPBackend exPName none none none [] 100
        exFreshId)).entries exPName = some (SchedulerEntry.next exEntry none 100)
    ∧ (SchedulerEntry.next exEntry none 100).total_run_count = exEntry.total_run_count + 1
    ∧ (SchedulerEntry.next exEntry none 100).last_run_at = 100 := by
  have h := claim7_entry_advance exPBackend exPName none none none [] 100 exFreshId exPId
    exEntry rfl rfl
  exact ⟨⟨rfl, rfl⟩, h⟩

end Pulsar
